import Mathlib

/-!
Verification development for the credit-scoring core of app.py:
field defaulting, the three component scorers, the ensemble credit-risk
predictor, the rule-based fraud detector, and the drift metrics
(KS statistic and PSI). Python dicts are modelled as maps from field
name to an optional dynamic value; Python numbers are modelled as exact
integers and rationals; Python runtime exceptions are modelled with an
explicit error monad.
-/

namespace Fintect

/-- Runtime exception kinds relevant to the scoring core. `typeError`
models the built-in Python TypeError raised by an order comparison
between a string and a number. `scoringError` models the typed
ScoringError exception the specification posits for malformed records;
the source defines no such class and never raises it, the constructor
exists only so that statements about it can be expressed. -/
inductive PyErr where
  | typeError
  | scoringError
  deriving DecidableEq

/-- A dynamic Python value as stored in an applicant record: an int, a
float (modelled as an exact rational), a string, or a bool. -/
inductive Value where
  | int (n : ℤ)
  | rat (q : ℚ)
  | str (s : String)
  | bool (b : Bool)
  deriving DecidableEq

deriving instance DecidableEq for Except

/-- An applicant record: a Python dict from field name to value. -/
abbrev Record := String → Option Value

/-- Numeric view of a value, if it has one. Python bools are a subtype
of int and compare as 0 and 1. Strings have no numeric view. -/
def Value.toNum : Value → Option ℚ
  | .int n => some (n : ℚ)
  | .rat q => some q
  | .bool b => some (if b then 1 else 0)
  | .str _ => none

/-- Python `a < b`: numeric comparison when both sides are numeric,
lexicographic when both are strings, TypeError otherwise. -/
def pyLt (a b : Value) : Except PyErr Bool :=
  match a.toNum, b.toNum with
  | some x, some y => .ok (decide (x < y))
  | _, _ =>
    match a, b with
    | .str s, .str t => .ok (decide (s < t))
    | _, _ => .error .typeError

/-- Python `a <= b`. -/
def pyLe (a b : Value) : Except PyErr Bool :=
  match a.toNum, b.toNum with
  | some x, some y => .ok (decide (x ≤ y))
  | _, _ =>
    match a, b with
    | .str s, .str t => .ok (decide (s ≤ t))
    | _, _ => .error .typeError

/-- Python `a > b`. -/
def pyGt (a b : Value) : Except PyErr Bool :=
  match a.toNum, b.toNum with
  | some x, some y => .ok (decide (y < x))
  | _, _ =>
    match a, b with
    | .str s, .str t => .ok (decide (t < s))
    | _, _ => .error .typeError

/-- Python `a == b`: numeric equality when both sides are numeric,
string equality for strings, and False across incompatible kinds.
Equality never raises. -/
def pyEq (a b : Value) : Bool :=
  match a.toNum, b.toNum with
  | some x, some y => decide (x = y)
  | _, _ =>
    match a, b with
    | .str s, .str t => decide (s = t)
    | _, _ => false

/-- Python short-circuit `a and b` in boolean context: the right operand
is evaluated only when the left one is true. -/
def pyAnd (a : Except PyErr Bool) (b : Unit → Except PyErr Bool) : Except PyErr Bool :=
  match a with
  | .error e => .error e
  | .ok true => b ()
  | .ok false => .ok false

/-- Python `dict.get(field, default_value)`. -/
def Record.get (r : Record) (field : String) (default_value : Value) : Value :=
  (r field).getD default_value

/-- Python `int(x)` on a float: truncation toward zero. -/
def pyInt (q : ℚ) : ℤ :=
  if 0 ≤ q then ⌊q⌋ else ⌈q⌉

/-- Rounding to the nearest integer with ties to even, as Python
`round` does. -/
def roundHalfEven (x : ℚ) : ℤ :=
  let n := ⌊x⌋
  if x - n < 1/2 then n
  else if 1/2 < x - n then n + 1
  else if n % 2 = 0 then n else n + 1

/-- Python `round(x, ndigits)`. -/
def pyRound (x : ℚ) (ndigits : ℕ) : ℚ :=
  (roundHalfEven (x * 10 ^ ndigits) : ℚ) / 10 ^ ndigits

/-- The default table of `_ensure_required_fields`, in source order. -/
def defaults : List (String × Value) :=
  [("age", .int 35),
   ("income", .int 500000),
   ("credit_score", .int 650),
   ("debt_to_income", .rat (3/10)),
   ("loan_amount", .int 500000),
   ("employment_length", .int 5),
   ("number_of_credit_lines", .int 5),
   ("late_payments_90d", .int 0),
   ("credit_utilization", .rat (2/5)),
   ("recent_inquiries", .int 2),
   ("existing_loans", .int 1),
   ("savings_balance", .int 100000),
   ("monthly_expenses", .int 30000),
   ("education_level", .str "Graduate"),
   ("marital_status", .str "Married"),
   ("dependents", .int 1),
   ("property_ownership", .str "Owned"),
   ("business_owner", .bool false),
   ("credit_history_length", .int 7),
   ("industry_risk", .str "Medium"),
   ("geographic_risk", .str "Medium")]

/-- One loop iteration of `_ensure_required_fields`:
`if field not in input_data: input_data[field] = default_value`. -/
def insertIfAbsent (r : Record) (field : String) (default_value : Value) : Record :=
  if (r field).isSome then r
  else fun k => if k = field then some default_value else r k

/-- `_ensure_required_fields`: insert every missing default field and
return the record. In the source this updates the dict in place and
returns the same dict object. -/
def ensure_required_fields (r : Record) : Record :=
  defaults.foldl (fun acc fd => insertIfAbsent acc fd.1 fd.2) r

/-- The state of the caller's record after `predict_credit_risk` (or a
direct `_ensure_required_fields` call) returns. The source assigns
`input_data[field] = default_value` on the dict the caller passed in and
every other access in the scoring pipeline is a read, so the caller's
mapping after the call is exactly the defaulted record. -/
def record_after_predict (r : Record) : Record :=
  ensure_required_fields r

/-- Payment-behavior band of `calculate_behavioral_score`, applied to
the running score. -/
def behavioral_payment_step (input_data : Record) (score : ℤ) : Except PyErr ℤ :=
  let late_payments := Record.get input_data "late_payments_90d" (.int 0)
  if pyEq late_payments (.int 0) then .ok (score + 50)
  else
    match pyLe late_payments (.int 2) with
    | .error e => .error e
    | .ok true => .ok (score + 20)
    | .ok false =>
      match pyGt late_payments (.int 5) with
      | .error e => .error e
      | .ok true => .ok (score - 60)
      | .ok false => .ok score

/-- Credit-utilization band of `calculate_behavioral_score`, applied to
the running score. -/
def behavioral_utilization_step (input_data : Record) (score : ℤ) : Except PyErr ℤ :=
  let utilization := Record.get input_data "credit_utilization" (.rat (2/5))
  match pyLt utilization (.rat (1/5)) with
  | .error e => .error e
  | .ok true => .ok (score + 30)
  | .ok false =>
    match pyLt utilization (.rat (2/5)) with
    | .error e => .error e
    | .ok true => .ok (score + 15)
    | .ok false =>
      match pyGt utilization (.rat (4/5)) with
      | .error e => .error e
      | .ok true => .ok (score - 40)
      | .ok false => .ok score

/-- `calculate_behavioral_score`: base 650, payment band, utilization
band, clamp to [300, 850]. -/
def calculate_behavioral_score (input_data : Record) : Except PyErr ℤ :=
  match behavioral_payment_step input_data 650 with
  | .error e => .error e
  | .ok score =>
    match behavioral_utilization_step input_data score with
    | .error e => .error e
    | .ok score => .ok (max 300 (min 850 score))

/-- Income band of `calculate_financial_score`. -/
def financial_income_step (input_data : Record) (score : ℤ) : Except PyErr ℤ :=
  let income := Record.get input_data "income" (.int 500000)
  match pyGt income (.int 1000000) with
  | .error e => .error e
  | .ok true => .ok (score + 40)
  | .ok false =>
    match pyGt income (.int 750000) with
    | .error e => .error e
    | .ok true => .ok (score + 20)
    | .ok false =>
      match pyLt income (.int 300000) with
      | .error e => .error e
      | .ok true => .ok (score - 30)
      | .ok false => .ok score

/-- Debt-to-income band of `calculate_financial_score`. -/
def financial_dti_step (input_data : Record) (score : ℤ) : Except PyErr ℤ :=
  let dti := Record.get input_data "debt_to_income" (.rat (3/10))
  match pyLt dti (.rat (1/5)) with
  | .error e => .error e
  | .ok true => .ok (score + 35)
  | .ok false =>
    match pyLt dti (.rat (7/20)) with
    | .error e => .error e
    | .ok true => .ok (score + 15)
    | .ok false =>
      match pyGt dti (.rat (1/2)) with
      | .error e => .error e
      | .ok true => .ok (score - 40)
      | .ok false => .ok score

/-- `calculate_financial_score`: base 650, income band, debt-to-income
band, clamp to [300, 850]. -/
def calculate_financial_score (input_data : Record) : Except PyErr ℤ :=
  match financial_income_step input_data 650 with
  | .error e => .error e
  | .ok score =>
    match financial_dti_step input_data score with
    | .error e => .error e
    | .ok score => .ok (max 300 (min 850 score))

/-- Employment-length band of `calculate_stability_score`. -/
def stability_employment_step (input_data : Record) (score : ℤ) : Except PyErr ℤ :=
  let employment_length := Record.get input_data "employment_length" (.int 5)
  match pyGt employment_length (.int 10) with
  | .error e => .error e
  | .ok true => .ok (score + 40)
  | .ok false =>
    match pyGt employment_length (.int 5) with
    | .error e => .error e
    | .ok true => .ok (score + 20)
    | .ok false =>
      match pyLt employment_length (.int 2) with
      | .error e => .error e
      | .ok true => .ok (score - 35)
      | .ok false => .ok score

/-- Residential-stability bonus of `calculate_stability_score`:
`+25` when `property_ownership == "Owned"`. Equality never raises. -/
def stability_property_step (input_data : Record) (score : ℤ) : ℤ :=
  if pyEq (Record.get input_data "property_ownership" (.str "Owned")) (.str "Owned") then
    score + 25
  else score

/-- `calculate_stability_score`: base 650, employment band, ownership
bonus, clamp to [300, 850]. -/
def calculate_stability_score (input_data : Record) : Except PyErr ℤ :=
  match stability_employment_step input_data 650 with
  | .error e => .error e
  | .ok score => .ok (max 300 (min 850 (stability_property_step input_data score)))

/-- The fixed ensemble weights set in the scorer constructor. -/
structure EnsembleWeights where
  behavioral_score : ℚ
  financial_score : ℚ
  stability_score : ℚ
  deriving DecidableEq

/-- `self.ensemble_weights`: behavioral 0.4, financial 0.35,
stability 0.25. -/
def ensemble_weights : EnsembleWeights :=
  { behavioral_score := 2/5, financial_score := 7/20, stability_score := 1/4 }

/-- The component-score breakdown attached to a credit decision. -/
structure ComponentScores where
  behavioral_score : ℤ
  financial_score : ℤ
  stability_score : ℤ
  ensemble_score : ℚ
  final_score : ℚ
  deriving DecidableEq

/-- The result dictionary of `predict_credit_risk`. -/
structure CreditResult where
  credit_score : ℤ
  risk_level : String
  default_probability : ℚ
  business_impact : String
  component_scores : ComponentScores
  deriving DecidableEq

/-- The risk-classification chain of `predict_credit_risk`: maps the
final score to the tier name, the (unrounded) default probability and
the business-impact label. -/
def classify_risk (final_score : ℚ) : String × ℚ × String :=
  if 750 ≤ final_score then
    ("Excellent", max 1 (min 5 ((850 - final_score) / 20)), "Premium Profitability")
  else if 700 ≤ final_score then
    ("Good", max 5 (min 15 ((850 - final_score) / 10)), "High Profitability")
  else if 650 ≤ final_score then
    ("Medium", max 15 (min 25 ((850 - final_score) / 6)), "Moderate Profitability")
  else if 600 ≤ final_score then
    ("Watch", max 25 (min 35 ((850 - final_score) / 4)), "Marginal Profitability")
  else
    ("High", max 35 (min 50 ((850 - final_score) / 3)), "High Risk - Review Required")

/-- The weighted ensemble score of `predict_credit_risk`. -/
def ensemble_of (behavioral_score financial_score stability_score : ℤ) : ℚ :=
  (behavioral_score : ℚ) * ensemble_weights.behavioral_score +
  (financial_score : ℚ) * ensemble_weights.financial_score +
  (stability_score : ℚ) * ensemble_weights.stability_score

/-- The external risk-factor adjustment of `predict_credit_risk`,
accumulated exactly as in the source: start at 0, subtract 25 or add 15
for industry risk, then subtract 20 or add 10 for geographic risk. -/
def risk_adjustment_of (r : Record) : ℤ :=
  let industry_risk := Record.get r "industry_risk" (.str "Medium")
  let geographic_risk := Record.get r "geographic_risk" (.str "Medium")
  let ra1 : ℤ :=
    if pyEq industry_risk (.str "High") then 0 - 25
    else if pyEq industry_risk (.str "Low") then 0 + 15
    else 0
  if pyEq geographic_risk (.str "High") then ra1 - 20
  else if pyEq geographic_risk (.str "Low") then ra1 + 10
  else ra1

/-- `final_score = max(300, min(850, ensemble_score + risk_adjustment))`. -/
def final_score_of (r : Record) (behavioral_score financial_score stability_score : ℤ) : ℚ :=
  max 300 (min 850
    (ensemble_of behavioral_score financial_score stability_score +
      (risk_adjustment_of r : ℚ)))

/-- The tail of `predict_credit_risk` once the three component scores
are known: ensemble combination, risk adjustment, clamp, tier
classification and result assembly. `r` is the already-defaulted
record. -/
def assemble (r : Record) (behavioral_score financial_score stability_score : ℤ) : CreditResult :=
  { credit_score := pyInt (final_score_of r behavioral_score financial_score stability_score)
  , risk_level := (classify_risk (final_score_of r behavioral_score financial_score stability_score)).1
  , default_probability :=
      pyRound (classify_risk (final_score_of r behavioral_score financial_score stability_score)).2.1 1
  , business_impact :=
      (classify_risk (final_score_of r behavioral_score financial_score stability_score)).2.2
  , component_scores :=
      { behavioral_score := behavioral_score
      , financial_score := financial_score
      , stability_score := stability_score
      , ensemble_score := ensemble_of behavioral_score financial_score stability_score
      , final_score := final_score_of r behavioral_score financial_score stability_score } }

/-- `predict_credit_risk`. The source rebinds `input_data` to the
defaulted dict once; `ensure_required_fields` is pure here, so applying
it at each use is the same record. A raised exception in any component
scorer propagates unhandled. -/
def predict_credit_risk (input_data : Record) : Except PyErr CreditResult :=
  match calculate_behavioral_score (ensure_required_fields input_data) with
  | .error e => .error e
  | .ok behavioral_score =>
    match calculate_financial_score (ensure_required_fields input_data) with
    | .error e => .error e
    | .ok financial_score =>
      match calculate_stability_score (ensure_required_fields input_data) with
      | .error e => .error e
      | .ok stability_score =>
        .ok (assemble (ensure_required_fields input_data)
          behavioral_score financial_score stability_score)

/-- Definition following the words of the specification, for comparison
with the embedded code: the risk adjustment is additive and independent,
industry High gives -25 and Low gives +15, geographic High gives -20 and
Low gives +10, anything else (including unrecognized values) gives 0. -/
def riskAdjustmentSpec (industry geographic : Value) : ℚ :=
  (if industry = .str "High" then -25
   else if industry = .str "Low" then 15
   else 0) +
  (if geographic = .str "High" then -20
   else if geographic = .str "Low" then 10
   else 0)

/-- The result dictionary of `detect_advanced_fraud`. -/
structure FraudResult where
  is_fraud : Bool
  fraud_score : ℚ
  fraud_indicators : ℕ
  fraud_patterns : List String
  confidence : String
  deriving DecidableEq

/-- The `patterns` list of `detect_advanced_fraud`: the four fraud
predicates, evaluated eagerly in declaration order, paired with their
pattern names. The inner `and` operators short-circuit. -/
def fraud_conditions (input_data : Record) : Except PyErr (List (Bool × String)) :=
  match pyAnd (pyGt (Record.get input_data "income" (.int 500000)) (.int 2000000))
      (fun _ => pyLt (Record.get input_data "age" (.int 35)) (.int 25)) with
  | .error e => .error e
  | .ok c1 =>
    match pyAnd (pyLt (Record.get input_data "employment_length" (.int 5)) (.int 1))
        (fun _ => pyGt (Record.get input_data "income" (.int 500000)) (.int 1000000)) with
    | .error e => .error e
    | .ok c2 =>
      match pyAnd (pyGt (Record.get input_data "credit_score" (.int 650)) (.int 800))
          (fun _ => pyLt (Record.get input_data "credit_history_length" (.int 7)) (.int 2)) with
      | .error e => .error e
      | .ok c3 =>
        match pyGt (Record.get input_data "recent_inquiries" (.int 2)) (.int 8) with
        | .error e => .error e
        | .ok c4 =>
          .ok [(c1, "Extreme Income for Age"),
               (c2, "High Income with Short Employment"),
               (c3, "Perfect Score with Short History"),
               (c4, "Excessive Credit Inquiries")]

/-- The tail of `detect_advanced_fraud` once the pattern conditions are
evaluated. `u` is the uniform random draw from [0, 0.2) injected as a
parameter, as the specification requires for testability. The returned
`fraud_score` is rounded to four digits; the fraud flag and the
confidence tier are computed from the unrounded score. -/
def fraud_result_of (patterns : List (Bool × String)) (u : ℚ) : FraudResult :=
  let fraud_patterns := (patterns.filter (fun p => p.1)).map (fun p => p.2)
  let fraud_score : ℚ := min 1 ((patterns.countP (fun p => p.1) : ℚ) * (1/4) + u)
  { is_fraud := decide (13/20 < fraud_score)
  , fraud_score := pyRound fraud_score 4
  , fraud_indicators := fraud_patterns.length
  , fraud_patterns := fraud_patterns
  , confidence :=
      if 4/5 < fraud_score then "High"
      else if 3/5 < fraud_score then "Medium"
      else "Low" }

/-- `detect_advanced_fraud`, with the random draw passed in as `u`. -/
def detect_advanced_fraud (input_data : Record) (u : ℚ) : Except PyErr FraudResult :=
  match fraud_conditions input_data with
  | .error e => .error e
  | .ok patterns => .ok (fraud_result_of patterns u)

/-- Insertion step for sorting label and score pairs by descending
score, modelling `sort_values("p", ascending=False)`. The relative
order of tied scores is not observable in any verified property. -/
def insertByDesc (x : ℚ × ℚ) : List (ℚ × ℚ) → List (ℚ × ℚ)
  | [] => [x]
  | y :: ys => if y.2 ≤ x.2 then x :: y :: ys else y :: insertByDesc x ys

/-- Sort label and score pairs by descending score. -/
def sortByDesc : List (ℚ × ℚ) → List (ℚ × ℚ)
  | [] => []
  | x :: xs => insertByDesc x (sortByDesc xs)

/-- The label column of the score-sorted frame built by
`ks_statistic`. -/
def ks_labels (y_true y_pred : List ℚ) : List ℚ :=
  (sortByDesc (y_true.zip y_pred)).map (fun p => p.1)

/-- The absolute gap between the cumulative positive fraction and the
cumulative negative fraction after the first `i + 1` ranked labels. -/
def cumDiff (ys : List ℚ) (totPos totNeg : ℚ) (i : ℕ) : ℚ :=
  |(((ys.take (i + 1)).countP (fun y => decide (y = 1)) : ℚ) / totPos) -
    (((ys.take (i + 1)).countP (fun y => decide (y = 0)) : ℚ) / totNeg)|

/-- The maximum cumulative gap over all ranks. The divisors are
`max(1, total positives)` and `max(1, total negatives)` as in the
source; a fold from 0 equals the series maximum because every gap is
nonnegative. -/
def ks_core (ys : List ℚ) : ℚ :=
  ((List.range ys.length).map
    (cumDiff ys
      (max 1 ((ys.countP (fun y => decide (y = 1)) : ℚ))
      )
      (max 1 ((ys.countP (fun y => decide (y = 0)) : ℚ))
      ))).foldl max 0

/-- `ks_statistic`. Building the two-column frame from lists of unequal
length raises inside the try block and yields 0.0; fewer than two
distinct label values yields 0.0; otherwise the maximum absolute gap of
the cumulative curves is returned. -/
def ks_statistic (y_true y_pred : List ℚ) : ℚ :=
  if y_true.length ≠ y_pred.length then 0
  else if (ks_labels y_true y_pred).dedup.length < 2 then 0
  else ks_core (ks_labels y_true y_pred)

/-- Insertion step for ascending sort of scores. -/
def insertByAsc (x : ℚ) : List ℚ → List ℚ
  | [] => [x]
  | y :: ys => if x ≤ y then x :: y :: ys else y :: insertByAsc x ys

/-- Ascending sort of scores, for quantile computation. -/
def sortByAsc : List ℚ → List ℚ
  | [] => []
  | x :: xs => insertByAsc x (sortByAsc xs)

/-- Linear-interpolation quantile of an ascending-sorted nonempty list,
as numpy computes it for `pd.qcut`. -/
def quantile_interp (s : List ℚ) (q : ℚ) : ℚ :=
  let pos := q * ((s.length : ℚ) - 1)
  let f : ℤ := ⌊pos⌋
  let g : ℚ := pos - (f : ℚ)
  let x0 := s.getD f.toNat 0
  let x1 := s.getD (f.toNat + 1) x0
  x0 + g * (x1 - x0)

/-- Collapse adjacent duplicate edges, modelling `duplicates="drop"`;
quantiles of a sorted list are monotone so adjacent deduplication drops
every duplicate. -/
def dedupAdj : List ℚ → List ℚ
  | [] => []
  | x :: xs =>
    match xs with
    | [] => [x]
    | y :: _ => if x = y then dedupAdj xs else x :: dedupAdj xs

/-- The quantile bucket edges `pd.qcut(e, q=bins, duplicates="drop",
retbins=True)[1]` computed from the expected distribution. -/
def qcut_edges (expected_scores : List ℚ) (bins : ℕ) : List ℚ :=
  dedupAdj ((List.range (bins + 1)).map
    (fun j => quantile_interp (sortByAsc expected_scores) ((j : ℚ) / (bins : ℚ))))

/-- Membership of a score in bucket `i` of `pd.cut(..., bins=edges,
include_lowest=True)`: the first interval is closed on both sides, the
rest are open on the left and closed on the right. -/
def bucket_mem (edges : List ℚ) (i : ℕ) (x : ℚ) : Bool :=
  match edges.get? i, edges.get? (i + 1) with
  | some lo, some hi =>
    if i = 0 then decide (lo ≤ x) && decide (x ≤ hi)
    else decide (lo < x) && decide (x ≤ hi)
  | _, _ => false

/-- Per-bucket proportions `value_counts(normalize=True).sort_index()`:
counts per interval in interval order, divided by the number of scores
that fall in some interval. Scores outside every interval are dropped,
as `pd.cut` maps them to NaN. When no score falls in any interval the
float code propagates NaN; this embedding follows the rational
convention that division by zero is zero, a corner outside every
verified property. -/
def bucket_pcts (xs : List ℚ) (edges : List ℚ) : List ℚ :=
  let counts := (List.range (edges.length - 1)).map
    (fun i => ((xs.countP (fun x => bucket_mem edges i x) : ℚ)))
  let total := counts.foldl (· + ·) 0
  counts.map (fun c => c / total)

/-- `psi_from_scores`: None for an empty input on either side; quantile
edges from the expected side only; zero proportions floored at 1e-6;
sum of (actual - expected) * ln(actual / expected) over buckets. A
degenerate edge list makes `pd.cut` raise inside the try block, which
also returns None. -/
noncomputable def psi_from_scores (expected_scores actual_scores : List ℚ) (bins : ℕ) : Option ℝ :=
  if expected_scores.length = 0 ∨ actual_scores.length = 0 then none
  else
    let edges := qcut_edges expected_scores bins
    if edges.length < 2 then none
    else
      let e_pct := (bucket_pcts expected_scores edges).map
        (fun p => if p = 0 then 1/1000000 else p)
      let a_pct := (bucket_pcts actual_scores edges).map
        (fun p => if p = 0 then 1/1000000 else p)
      some ((a_pct.zip e_pct).foldl
        (fun acc pq => acc + ((pq.1 - pq.2 : ℚ) : ℝ) * Real.log (((pq.1 / pq.2 : ℚ) : ℝ))) 0)

/-- The empty applicant record. -/
def emptyRecord : Record := fun _ => none

/-- The credit decision produced for the empty record, where every
field takes its default. -/
def emptyCreditResult : CreditResult :=
  { credit_score := 681
  , risk_level := "Medium"
  , default_probability := 25
  , business_impact := "Moderate Profitability"
  , component_scores :=
      { behavioral_score := 700
      , financial_score := 665
      , stability_score := 675
      , ensemble_score := 1363/2
      , final_score := 1363/2 } }

/-- A record whose only explicit field is nine recent inquiries. -/
def inquiriesRecord : Record :=
  fun k => if k = "recent_inquiries" then some (.int 9) else none

/-- The evaluated fraud conditions for `inquiriesRecord`: only the
excessive-inquiries predicate fires. -/
def inquiriesPatterns : List (Bool × String) :=
  [(false, "Extreme Income for Age"),
   (false, "High Income with Short Employment"),
   (false, "Perfect Score with Short History"),
   (true, "Excessive Credit Inquiries")]

/-- The fraud assessment for `inquiriesRecord` at random draw 1/10. -/
def inquiriesFraudResult : FraudResult :=
  { is_fraud := false
  , fraud_score := 7/20
  , fraud_indicators := 1
  , fraud_patterns := ["Excessive Credit Inquiries"]
  , confidence := "Low" }

/-- A record whose credit utilization is present but is a string, so
every order comparison on it raises TypeError. -/
def badUtilRecord : Record :=
  fun k => if k = "credit_utilization" then some (.str "high") else none

/-- A record that already contains the single field age. -/
def ageOnlyRecord : Record :=
  fun k => if k = "age" then some (.int 99) else none

/-! Lemmas about field defaulting. -/

theorem insertIfAbsent_present_eq (r : Record) (f0 : String) (v : Value) (k : String)
    (h : (r k).isSome = true) : insertIfAbsent r f0 v k = r k := by
  by_cases hp : (r f0).isSome = true
  · rw [insertIfAbsent, if_pos hp]
  · rw [insertIfAbsent, if_neg hp]
    by_cases hk : k = f0
    · subst hk
      exact absurd h hp
    · show (if k = f0 then some v else r k) = r k
      rw [if_neg hk]

theorem foldl_insert_present_eq (l : List (String × Value)) (r : Record) (k : String)
    (h : (r k).isSome = true) :
    (l.foldl (fun acc fd => insertIfAbsent acc fd.1 fd.2) r) k = r k := by
  induction l generalizing r with
  | nil => rfl
  | cons p t ih =>
    rw [List.foldl_cons]
    have h1 := insertIfAbsent_present_eq r p.1 p.2 k h
    have h2 : ((insertIfAbsent r p.1 p.2) k).isSome = true := by rw [h1]; exact h
    rw [ih _ h2, h1]

theorem foldl_insert_mem_isSome (l : List (String × Value)) (r : Record)
    (p : String × Value) (hp : p ∈ l) :
    ((l.foldl (fun acc fd => insertIfAbsent acc fd.1 fd.2) r) p.1).isSome = true := by
  induction l generalizing r with
  | nil => cases hp
  | cons q t ih =>
    rw [List.foldl_cons]
    rcases List.mem_cons.mp hp with hq | ht
    · subst hq
      have hs : ((insertIfAbsent r p.1 p.2) p.1).isSome = true := by
        by_cases hx : (r p.1).isSome = true
        · rw [insertIfAbsent, if_pos hx]
          exact hx
        · rw [insertIfAbsent, if_neg hx]
          show (if p.1 = p.1 then some p.2 else r p.1).isSome = true
          rw [if_pos rfl]
          rfl
      rw [foldl_insert_present_eq t _ _ hs]
      exact hs
    · exact ih _ ht

theorem foldl_insert_all_present (l : List (String × Value)) (r : Record)
    (h : ∀ p ∈ l, (r p.1).isSome = true) :
    l.foldl (fun acc fd => insertIfAbsent acc fd.1 fd.2) r = r := by
  induction l with
  | nil => rfl
  | cons q t ih =>
    rw [List.foldl_cons]
    have hq : insertIfAbsent r q.1 q.2 = r := by
      rw [insertIfAbsent, if_pos (h q (List.mem_cons_self q t))]
    rw [hq]
    exact ih (fun p hp => h p (List.mem_cons_of_mem q hp))

/-- C4: for every record, `ensure_required_fields` is idempotent, and
every attribute already present in the record keeps the exact value the
record gave it: present attributes are never overwritten. -/
theorem ensure_required_fields_idempotent :
    ∀ r : Record,
      ensure_required_fields (ensure_required_fields r) = ensure_required_fields r ∧
      ∀ k : String, (r k).isSome = true → ensure_required_fields r k = r k := by
  intro r
  constructor
  · exact foldl_insert_all_present defaults (ensure_required_fields r)
      (fun p hp => foldl_insert_mem_isSome defaults r p hp)
  · exact fun k h => foldl_insert_present_eq defaults r k h

/-- Witness for C4 at a record containing only the field age. -/
theorem ensure_required_fields_idempotent_witness :
    ensure_required_fields (ensure_required_fields ageOnlyRecord) =
      ensure_required_fields ageOnlyRecord ∧
    ensure_required_fields ageOnlyRecord "age" = ageOnlyRecord "age" :=
  ⟨(ensure_required_fields_idempotent ageOnlyRecord).1,
   (ensure_required_fields_idempotent ageOnlyRecord).2 "age" (by decide)⟩

/-- C7 counterexample: a call to `predict_credit_risk` on the empty
record does not leave the caller record unchanged: the in-place
defaulting writes the field age into it. -/
theorem predict_mutates_record_counterexample :
    record_after_predict emptyRecord "age" = some (Value.int 35) ∧
    emptyRecord "age" = none ∧
    record_after_predict emptyRecord ≠ emptyRecord := by
  refine ⟨by decide, rfl, fun h => ?_⟩
  have h1 : record_after_predict emptyRecord "age" = emptyRecord "age" := congrFun h "age"
  have h2 : record_after_predict emptyRecord "age" = some (Value.int 35) := by decide
  rw [h1] at h2
  exact Option.noConfusion h2

/-- C7 amended: a call to `predict_credit_risk` never changes a field
that is present in the caller record, and it leaves the record
unchanged exactly when the record already contains every field of the
default table: a record missing some default field is mutated by the
in-place defaulting, since the missing field is present afterwards. -/
theorem record_after_predict_characterization :
    ∀ r : Record,
      (∀ k : String, (r k).isSome = true → record_after_predict r k = r k) ∧
      (record_after_predict r = r ↔ ∀ p ∈ defaults, (r p.1).isSome = true) := by
  intro r
  refine ⟨fun k h => foldl_insert_present_eq defaults r k h, ?_, ?_⟩
  · intro h p hp
    have hs : ((record_after_predict r) p.1).isSome = true :=
      foldl_insert_mem_isSome defaults r p hp
    rwa [h] at hs
  · exact fun h => foldl_insert_all_present defaults r h

/-- Witness for the amended C7: a fully defaulted record is present at
every default field and is left unchanged, and its present field age
keeps its value. -/
theorem record_after_predict_characterization_witness :
    record_after_predict (ensure_required_fields emptyRecord) "age" =
      ensure_required_fields emptyRecord "age" ∧
    record_after_predict (ensure_required_fields emptyRecord) =
      ensure_required_fields emptyRecord :=
  ⟨(record_after_predict_characterization (ensure_required_fields emptyRecord)).1 "age"
      (by decide),
   (record_after_predict_characterization (ensure_required_fields emptyRecord)).2.mpr
      (by decide)⟩

/-! Error behavior of the scoring pipeline. -/

/-- C6 counterexample: on a record whose credit utilization is a
string, `predict_credit_risk` propagates the raw built-in TypeError of
the failed comparison, not the typed ScoringError the claim names. -/
theorem scoring_error_counterexample :
    predict_credit_risk badUtilRecord = .error PyErr.typeError ∧
    PyErr.typeError ≠ PyErr.scoringError :=
  ⟨by decide, by decide⟩

/-- C6 amended: an exception raised by any of the three component
scorers on a type-incompatible field propagates unchanged to the caller
of `predict_credit_risk`; nothing converts it into a ScoringError and
nothing masks it. -/
theorem scorer_error_propagation :
    ∀ (r : Record) (e : PyErr),
      (calculate_behavioral_score (ensure_required_fields r) = .error e →
        predict_credit_risk r = .error e) ∧
      (∀ b : ℤ, calculate_behavioral_score (ensure_required_fields r) = .ok b →
        calculate_financial_score (ensure_required_fields r) = .error e →
        predict_credit_risk r = .error e) ∧
      (∀ b f : ℤ, calculate_behavioral_score (ensure_required_fields r) = .ok b →
        calculate_financial_score (ensure_required_fields r) = .ok f →
        calculate_stability_score (ensure_required_fields r) = .error e →
        predict_credit_risk r = .error e) := by
  intro r e
  refine ⟨fun h => ?_, fun b hb h => ?_, fun b f hb hf h => ?_⟩
  · unfold predict_credit_risk
    rw [h]
  · unfold predict_credit_risk
    rw [hb, h]
  · unfold predict_credit_risk
    rw [hb, hf, h]

/-- Witness for the amended C6: the TypeError raised while comparing
the string utilization propagates out of `predict_credit_risk`. -/
theorem scorer_error_propagation_witness :
    predict_credit_risk badUtilRecord = .error PyErr.typeError :=
  (scorer_error_propagation badUtilRecord PyErr.typeError).1 (by decide)

/-! Bounds of the component scorers and of the final score. -/

theorem calculate_behavioral_score_bounds (r : Record) (n : ℤ)
    (h : calculate_behavioral_score r = .ok n) : 300 ≤ n ∧ n ≤ 850 := by
  unfold calculate_behavioral_score at h
  split at h
  · exact Except.noConfusion h
  · split at h
    · exact Except.noConfusion h
    · have hn := Except.ok.inj h
      subst hn
      exact ⟨le_max_left 300 _, max_le (by norm_num) (min_le_left 850 _)⟩

theorem calculate_financial_score_bounds (r : Record) (n : ℤ)
    (h : calculate_financial_score r = .ok n) : 300 ≤ n ∧ n ≤ 850 := by
  unfold calculate_financial_score at h
  split at h
  · exact Except.noConfusion h
  · split at h
    · exact Except.noConfusion h
    · have hn := Except.ok.inj h
      subst hn
      exact ⟨le_max_left 300 _, max_le (by norm_num) (min_le_left 850 _)⟩

theorem calculate_stability_score_bounds (r : Record) (n : ℤ)
    (h : calculate_stability_score r = .ok n) : 300 ≤ n ∧ n ≤ 850 := by
  unfold calculate_stability_score at h
  split at h
  · exact Except.noConfusion h
  · have hn := Except.ok.inj h
    subst hn
    exact ⟨le_max_left 300 _, max_le (by norm_num) (min_le_left 850 _)⟩

theorem predict_credit_risk_ok_elim (r : Record) (res : CreditResult)
    (h : predict_credit_risk r = .ok res) :
    ∃ b f s : ℤ,
      calculate_behavioral_score (ensure_required_fields r) = .ok b ∧
      calculate_financial_score (ensure_required_fields r) = .ok f ∧
      calculate_stability_score (ensure_required_fields r) = .ok s ∧
      res = assemble (ensure_required_fields r) b f s := by
  unfold predict_credit_risk at h
  rcases hb : calculate_behavioral_score (ensure_required_fields r) with e | b <;> rw [hb] at h
  · exact Except.noConfusion h
  · rcases hf : calculate_financial_score (ensure_required_fields r) with e | f <;> rw [hf] at h
    · exact Except.noConfusion h
    · rcases hs : calculate_stability_score (ensure_required_fields r) with e | s <;> rw [hs] at h
      · exact Except.noConfusion h
      · exact ⟨b, f, s, rfl, rfl, rfl, (Except.ok.inj h).symm⟩

theorem pyInt_bounds (q : ℚ) (h1 : (300:ℚ) ≤ q) (h2 : q ≤ 850) :
    (300:ℤ) ≤ pyInt q ∧ pyInt q ≤ 850 := by
  unfold pyInt
  rw [if_pos (by linarith : (0:ℚ) ≤ q)]
  constructor
  · exact Int.le_floor.mpr (by exact_mod_cast h1)
  · have h3 : (⌊q⌋ : ℚ) ≤ 850 := le_trans (Int.floor_le q) h2
    exact_mod_cast h3

theorem final_score_of_bounds (r : Record) (b f s : ℤ) :
    (300:ℚ) ≤ final_score_of r b f s ∧ final_score_of r b f s ≤ 850 := by
  unfold final_score_of
  exact ⟨le_max_left _ _, max_le (by norm_num) (min_le_left _ _)⟩

/-- C1: for every record on which `predict_credit_risk` succeeds, the
returned credit score and each of the three component scores are
integers in the range [300, 850]. -/
theorem credit_scores_in_range :
    ∀ (r : Record) (res : CreditResult), predict_credit_risk r = .ok res →
      (300 ≤ res.credit_score ∧ res.credit_score ≤ 850) ∧
      (300 ≤ res.component_scores.behavioral_score ∧
        res.component_scores.behavioral_score ≤ 850) ∧
      (300 ≤ res.component_scores.financial_score ∧
        res.component_scores.financial_score ≤ 850) ∧
      (300 ≤ res.component_scores.stability_score ∧
        res.component_scores.stability_score ≤ 850) := by
  intro r res h
  obtain ⟨b, f, s, hb, hf, hs, hres⟩ := predict_credit_risk_ok_elim r res h
  subst hres
  have h1 := final_score_of_bounds (ensure_required_fields r) b f s
  exact ⟨pyInt_bounds _ h1.1 h1.2,
    calculate_behavioral_score_bounds _ b hb,
    calculate_financial_score_bounds _ f hf,
    calculate_stability_score_bounds _ s hs⟩

set_option maxRecDepth 1000000 in
/-- Witness for C1 at the empty record. -/
theorem credit_scores_in_range_witness :
    (300 ≤ emptyCreditResult.credit_score ∧ emptyCreditResult.credit_score ≤ 850) ∧
    (300 ≤ emptyCreditResult.component_scores.behavioral_score ∧
      emptyCreditResult.component_scores.behavioral_score ≤ 850) ∧
    (300 ≤ emptyCreditResult.component_scores.financial_score ∧
      emptyCreditResult.component_scores.financial_score ≤ 850) ∧
    (300 ≤ emptyCreditResult.component_scores.stability_score ∧
      emptyCreditResult.component_scores.stability_score ≤ 850) :=
  credit_scores_in_range emptyRecord emptyCreditResult (by with_unfolding_all decide)

/-! Tier classification. -/

theorem classify_risk_fst (fs : ℚ) :
    (classify_risk fs).1 =
      if 750 ≤ fs then "Excellent"
      else if 700 ≤ fs then "Good"
      else if 650 ≤ fs then "Medium"
      else if 600 ≤ fs then "Watch"
      else "High" := by
  unfold classify_risk
  split_ifs <;> rfl

theorem classify_risk_excellent_iff (fs : ℚ) :
    (classify_risk fs).1 = "Excellent" ↔ 750 ≤ fs := by
  rw [classify_risk_fst]
  split_ifs with h1 h2 h3 h4
  · exact iff_of_true rfl h1
  · exact iff_of_false (by decide) h1
  · exact iff_of_false (by decide) h1
  · exact iff_of_false (by decide) h1
  · exact iff_of_false (by decide) h1

theorem classify_risk_good_iff (fs : ℚ) :
    (classify_risk fs).1 = "Good" ↔ 700 ≤ fs ∧ fs < 750 := by
  rw [classify_risk_fst]
  split_ifs with h1 h2 h3 h4
  · exact iff_of_false (by decide) (fun hc => absurd h1 (not_le.mpr hc.2))
  · exact iff_of_true rfl ⟨h2, not_le.mp h1⟩
  · exact iff_of_false (by decide) (fun hc => h2 hc.1)
  · exact iff_of_false (by decide) (fun hc => h2 hc.1)
  · exact iff_of_false (by decide) (fun hc => h2 hc.1)

theorem classify_risk_medium_iff (fs : ℚ) :
    (classify_risk fs).1 = "Medium" ↔ 650 ≤ fs ∧ fs < 700 := by
  rw [classify_risk_fst]
  split_ifs with h1 h2 h3 h4
  · exact iff_of_false (by decide)
      (fun hc => absurd h1 (not_le.mpr (lt_of_lt_of_le hc.2 (by norm_num))))
  · exact iff_of_false (by decide) (fun hc => absurd h2 (not_le.mpr hc.2))
  · exact iff_of_true rfl ⟨h3, not_le.mp h2⟩
  · exact iff_of_false (by decide) (fun hc => h3 hc.1)
  · exact iff_of_false (by decide) (fun hc => h3 hc.1)

theorem classify_risk_watch_iff (fs : ℚ) :
    (classify_risk fs).1 = "Watch" ↔ 600 ≤ fs ∧ fs < 650 := by
  rw [classify_risk_fst]
  split_ifs with h1 h2 h3 h4
  · exact iff_of_false (by decide)
      (fun hc => absurd h1 (not_le.mpr (lt_of_lt_of_le hc.2 (by norm_num))))
  · exact iff_of_false (by decide)
      (fun hc => absurd h2 (not_le.mpr (lt_of_lt_of_le hc.2 (by norm_num))))
  · exact iff_of_false (by decide) (fun hc => absurd h3 (not_le.mpr hc.2))
  · exact iff_of_true rfl ⟨h4, not_le.mp h3⟩
  · exact iff_of_false (by decide) (fun hc => h4 hc.1)

theorem classify_risk_high_iff (fs : ℚ) :
    (classify_risk fs).1 = "High" ↔ fs < 600 := by
  rw [classify_risk_fst]
  split_ifs with h1 h2 h3 h4
  · exact iff_of_false (by decide)
      (fun hc => absurd h1 (not_le.mpr (lt_of_lt_of_le hc (by norm_num))))
  · exact iff_of_false (by decide)
      (fun hc => absurd h2 (not_le.mpr (lt_of_lt_of_le hc (by norm_num))))
  · exact iff_of_false (by decide)
      (fun hc => absurd h3 (not_le.mpr (lt_of_lt_of_le hc (by norm_num))))
  · exact iff_of_false (by decide) (fun hc => absurd h4 (not_le.mpr hc))
  · exact iff_of_true rfl (not_le.mp h4)

theorem classify_risk_mem (fs : ℚ) :
    (classify_risk fs).1 ∈ (["Excellent", "Good", "Medium", "Watch", "High"] : List String) := by
  rw [classify_risk_fst]
  split_ifs <;> simp

/-- C2: the tier classification used by `predict_credit_risk` is total
over the five names and partitioned by the ordered thresholds 750, 700,
650, 600; a final score of 750 is Excellent and 749 is Good; and the
risk level the predictor returns is exactly the classification of the
final score it computed. -/
theorem risk_level_classification :
    (∀ fs : ℚ,
      (classify_risk fs).1 ∈ (["Excellent", "Good", "Medium", "Watch", "High"] : List String)) ∧
    (∀ fs : ℚ,
      ((classify_risk fs).1 = "Excellent" ↔ 750 ≤ fs) ∧
      ((classify_risk fs).1 = "Good" ↔ 700 ≤ fs ∧ fs < 750) ∧
      ((classify_risk fs).1 = "Medium" ↔ 650 ≤ fs ∧ fs < 700) ∧
      ((classify_risk fs).1 = "Watch" ↔ 600 ≤ fs ∧ fs < 650) ∧
      ((classify_risk fs).1 = "High" ↔ fs < 600)) ∧
    ((classify_risk 750).1 = "Excellent" ∧ (classify_risk 749).1 = "Good") ∧
    (∀ (r : Record) (res : CreditResult), predict_credit_risk r = .ok res →
      res.risk_level = (classify_risk res.component_scores.final_score).1) := by
  refine ⟨classify_risk_mem,
    fun fs => ⟨classify_risk_excellent_iff fs, classify_risk_good_iff fs,
      classify_risk_medium_iff fs, classify_risk_watch_iff fs, classify_risk_high_iff fs⟩,
    ⟨(classify_risk_excellent_iff 750).mpr (by norm_num),
     (classify_risk_good_iff 749).mpr (by norm_num)⟩,
    ?_⟩
  intro r res h
  obtain ⟨b, f, s, hb, hf, hs, hres⟩ := predict_credit_risk_ok_elim r res h
  subst hres
  rfl

set_option maxRecDepth 1000000 in
/-- Witness for C2 at the final score of the empty record. -/
theorem risk_level_classification_witness :
    (classify_risk (1363/2)).1 = "Medium" ∧
    emptyCreditResult.risk_level =
      (classify_risk emptyCreditResult.component_scores.final_score).1 :=
  ⟨((risk_level_classification.2.1 (1363/2)).2.2.1).mpr (by norm_num),
   risk_level_classification.2.2.2 emptyRecord emptyCreditResult
     (by with_unfolding_all decide)⟩

/-! The ensemble formula and the risk adjustment. -/

theorem pyEq_str_iff (v : Value) (s : String) : pyEq v (.str s) = true ↔ v = .str s := by
  cases v <;> simp [pyEq, Value.toNum]

theorem risk_adjustment_of_eq_spec (r : Record) :
    (risk_adjustment_of r : ℚ) =
      riskAdjustmentSpec (Record.get r "industry_risk" (.str "Medium"))
        (Record.get r "geographic_risk" (.str "Medium")) := by
  unfold risk_adjustment_of riskAdjustmentSpec
  dsimp only
  by_cases h1 : Record.get r "industry_risk" (Value.str "Medium") = Value.str "High"
  · rw [if_pos ((pyEq_str_iff _ "High").mpr h1), if_pos h1]
    by_cases h3 : Record.get r "geographic_risk" (Value.str "Medium") = Value.str "High"
    · rw [if_pos ((pyEq_str_iff _ "High").mpr h3), if_pos h3]
      push_cast
      ring
    · rw [if_neg (fun hc => h3 ((pyEq_str_iff _ "High").mp hc)), if_neg h3]
      by_cases h4 : Record.get r "geographic_risk" (Value.str "Medium") = Value.str "Low"
      · rw [if_pos ((pyEq_str_iff _ "Low").mpr h4), if_pos h4]
        push_cast
        ring
      · rw [if_neg (fun hc => h4 ((pyEq_str_iff _ "Low").mp hc)), if_neg h4]
        push_cast
        ring
  · rw [if_neg (fun hc => h1 ((pyEq_str_iff _ "High").mp hc)), if_neg h1]
    by_cases h2 : Record.get r "industry_risk" (Value.str "Medium") = Value.str "Low"
    · rw [if_pos ((pyEq_str_iff _ "Low").mpr h2), if_pos h2]
      by_cases h3 : Record.get r "geographic_risk" (Value.str "Medium") = Value.str "High"
      · rw [if_pos ((pyEq_str_iff _ "High").mpr h3), if_pos h3]
        push_cast
        ring
      · rw [if_neg (fun hc => h3 ((pyEq_str_iff _ "High").mp hc)), if_neg h3]
        by_cases h4 : Record.get r "geographic_risk" (Value.str "Medium") = Value.str "Low"
        · rw [if_pos ((pyEq_str_iff _ "Low").mpr h4), if_pos h4]
          push_cast
          ring
        · rw [if_neg (fun hc => h4 ((pyEq_str_iff _ "Low").mp hc)), if_neg h4]
          push_cast
          ring
    · rw [if_neg (fun hc => h2 ((pyEq_str_iff _ "Low").mp hc)), if_neg h2]
      by_cases h3 : Record.get r "geographic_risk" (Value.str "Medium") = Value.str "High"
      · rw [if_pos ((pyEq_str_iff _ "High").mpr h3), if_pos h3]
        push_cast
        ring
      · rw [if_neg (fun hc => h3 ((pyEq_str_iff _ "High").mp hc)), if_neg h3]
        by_cases h4 : Record.get r "geographic_risk" (Value.str "Medium") = Value.str "Low"
        · rw [if_pos ((pyEq_str_iff _ "Low").mpr h4), if_pos h4]
          push_cast
          ring
        · rw [if_neg (fun hc => h4 ((pyEq_str_iff _ "Low").mp hc)), if_neg h4]
          push_cast
          ring

/-- C3: on every record on which `predict_credit_risk` succeeds, the
ensemble score is the 0.40, 0.35, 0.25 weighted sum of the three
component scores, and the final score is the ensemble score plus the
additive industry and geographic risk adjustment, clamped to
[300, 850]. -/
theorem ensemble_and_final_score_formula :
    ∀ (r : Record) (res : CreditResult), predict_credit_risk r = .ok res →
      res.component_scores.ensemble_score =
        (40/100) * (res.component_scores.behavioral_score : ℚ) +
        (35/100) * (res.component_scores.financial_score : ℚ) +
        (25/100) * (res.component_scores.stability_score : ℚ) ∧
      res.component_scores.final_score =
        max 300 (min 850 (res.component_scores.ensemble_score +
          riskAdjustmentSpec
            (Record.get (ensure_required_fields r) "industry_risk" (.str "Medium"))
            (Record.get (ensure_required_fields r) "geographic_risk" (.str "Medium")))) := by
  intro r res h
  obtain ⟨b, f, s, hb, hf, hs, hres⟩ := predict_credit_risk_ok_elim r res h
  subst hres
  constructor
  · show ensemble_of b f s =
      (40/100) * (b : ℚ) + (35/100) * (f : ℚ) + (25/100) * (s : ℚ)
    unfold ensemble_of ensemble_weights
    ring
  · show final_score_of (ensure_required_fields r) b f s =
      max 300 (min 850 (ensemble_of b f s +
        riskAdjustmentSpec
          (Record.get (ensure_required_fields r) "industry_risk" (.str "Medium"))
          (Record.get (ensure_required_fields r) "geographic_risk" (.str "Medium"))))
    unfold final_score_of
    rw [risk_adjustment_of_eq_spec]

set_option maxRecDepth 1000000 in
/-- Witness for C3 at the empty record. -/
theorem ensemble_and_final_score_formula_witness :
    emptyCreditResult.component_scores.ensemble_score =
      (40/100) * (emptyCreditResult.component_scores.behavioral_score : ℚ) +
      (35/100) * (emptyCreditResult.component_scores.financial_score : ℚ) +
      (25/100) * (emptyCreditResult.component_scores.stability_score : ℚ) ∧
    emptyCreditResult.component_scores.final_score =
      max 300 (min 850 (emptyCreditResult.component_scores.ensemble_score +
        riskAdjustmentSpec
          (Record.get (ensure_required_fields emptyRecord) "industry_risk" (.str "Medium"))
          (Record.get (ensure_required_fields emptyRecord) "geographic_risk" (.str "Medium")))) :=
  ensemble_and_final_score_formula emptyRecord emptyCreditResult
    (by with_unfolding_all decide)

/-! Fraud detection. -/

theorem detect_advanced_fraud_ok_elim (r : Record) (u : ℚ) (res : FraudResult)
    (h : detect_advanced_fraud r u = .ok res) :
    ∃ ps : List (Bool × String),
      fraud_conditions r = .ok ps ∧ res = fraud_result_of ps u := by
  unfold detect_advanced_fraud at h
  rcases hps : fraud_conditions r with e | ps <;> rw [hps] at h
  · exact Except.noConfusion h
  · exact ⟨ps, rfl, (Except.ok.inj h).symm⟩

theorem fraud_result_of_indicators (ps : List (Bool × String)) (u : ℚ) :
    (fraud_result_of ps u).fraud_indicators = ps.countP (fun p => p.1) := by
  show ((ps.filter (fun p => p.1)).map (fun p => p.2)).length = ps.countP (fun p => p.1)
  rw [List.length_map, ← List.countP_eq_length_filter]

/-- C5: for every record and every random draw in [0, 0.2), the fraud
score driving the decision is `min(1, indicators * 0.25 + u)` where
`indicators` counts the true fraud predicates; the fraud flag holds
exactly when that score exceeds 0.65; confidence is High above 0.8,
Medium above 0.6, and Low otherwise; and the reported score is the
same quantity rounded to four digits. -/
theorem fraud_score_formula :
    ∀ (r : Record) (u : ℚ) (ps : List (Bool × String)) (res : FraudResult),
      0 ≤ u → u < 1/5 →
      fraud_conditions r = .ok ps →
      detect_advanced_fraud r u = .ok res →
      res.fraud_indicators = ps.countP (fun p => p.1) ∧
      res.fraud_score =
        pyRound (min 1 ((ps.countP (fun p => p.1) : ℚ) * (1/4) + u)) 4 ∧
      (res.is_fraud = true ↔
        13/20 < min 1 ((ps.countP (fun p => p.1) : ℚ) * (1/4) + u)) ∧
      (res.confidence = "High" ↔
        4/5 < min 1 ((ps.countP (fun p => p.1) : ℚ) * (1/4) + u)) ∧
      (res.confidence = "Medium" ↔
        3/5 < min 1 ((ps.countP (fun p => p.1) : ℚ) * (1/4) + u) ∧
        min 1 ((ps.countP (fun p => p.1) : ℚ) * (1/4) + u) ≤ 4/5) ∧
      (res.confidence = "Low" ↔
        min 1 ((ps.countP (fun p => p.1) : ℚ) * (1/4) + u) ≤ 3/5) := by
  intro r u ps res hu0 hu1 hps h
  obtain ⟨ps2, hps2, hres⟩ := detect_advanced_fraud_ok_elim r u res h
  rw [hps] at hps2
  obtain rfl : ps = ps2 := Except.ok.inj hps2
  subst hres
  refine ⟨fraud_result_of_indicators ps u, rfl, ?_, ?_⟩
  · exact ⟨fun hx => of_decide_eq_true hx, fun hx => decide_eq_true hx⟩
  · have hc : (fraud_result_of ps u).confidence =
        (if 4/5 < min 1 ((ps.countP (fun p => p.1) : ℚ) * (1/4) + u) then "High"
         else if 3/5 < min 1 ((ps.countP (fun p => p.1) : ℚ) * (1/4) + u) then "Medium"
         else "Low") := rfl
    rw [hc]
    by_cases ha : 4/5 < min 1 ((ps.countP (fun p => p.1) : ℚ) * (1/4) + u)
    · rw [if_pos ha]
      refine ⟨iff_of_true rfl ha, iff_of_false (by decide) ?_, iff_of_false (by decide) ?_⟩
      · exact fun hc => absurd hc.2 (not_le.mpr ha)
      · exact fun hc => absurd hc (not_le.mpr (lt_trans (by norm_num) ha))
    · rw [if_neg ha]
      by_cases hb : 3/5 < min 1 ((ps.countP (fun p => p.1) : ℚ) * (1/4) + u)
      · rw [if_pos hb]
        exact ⟨iff_of_false (by decide) ha,
          iff_of_true rfl ⟨hb, not_lt.mp ha⟩,
          iff_of_false (by decide) (not_le.mpr hb)⟩
      · rw [if_neg hb]
        exact ⟨iff_of_false (by decide) ha,
          iff_of_false (by decide) (fun hc => hb hc.1),
          iff_of_true rfl (not_lt.mp hb)⟩

set_option maxRecDepth 1000000 in
/-- Witness for C5 at the record with nine recent inquiries and random
draw 1/10. -/
theorem fraud_score_formula_witness :
    inquiriesFraudResult.fraud_indicators = inquiriesPatterns.countP (fun p => p.1) ∧
    inquiriesFraudResult.fraud_score =
      pyRound (min 1 ((inquiriesPatterns.countP (fun p => p.1) : ℚ) * (1/4) + 1/10)) 4 ∧
    (inquiriesFraudResult.is_fraud = true ↔
      13/20 < min 1 ((inquiriesPatterns.countP (fun p => p.1) : ℚ) * (1/4) + 1/10)) ∧
    (inquiriesFraudResult.confidence = "High" ↔
      4/5 < min 1 ((inquiriesPatterns.countP (fun p => p.1) : ℚ) * (1/4) + 1/10)) ∧
    (inquiriesFraudResult.confidence = "Medium" ↔
      3/5 < min 1 ((inquiriesPatterns.countP (fun p => p.1) : ℚ) * (1/4) + 1/10) ∧
      min 1 ((inquiriesPatterns.countP (fun p => p.1) : ℚ) * (1/4) + 1/10) ≤ 4/5) ∧
    (inquiriesFraudResult.confidence = "Low" ↔
      min 1 ((inquiriesPatterns.countP (fun p => p.1) : ℚ) * (1/4) + 1/10) ≤ 3/5) :=
  fraud_score_formula inquiriesRecord (1/10) inquiriesPatterns inquiriesFraudResult
    (by norm_num) (by norm_num) (by decide) (by with_unfolding_all decide)

/-- C10: whenever at most one fraud predicate fires, the fraud flag is
false for every possible random draw in [0, 0.2): flagging fraud
requires at least two triggered indicators. -/
theorem fraud_flag_requires_two_indicators :
    ∀ (r : Record) (u : ℚ) (res : FraudResult),
      0 ≤ u → u < 1/5 →
      detect_advanced_fraud r u = .ok res →
      res.fraud_indicators ≤ 1 →
      res.is_fraud = false := by
  intro r u res hu0 hu1 h hcount
  obtain ⟨ps, hps, hres⟩ := detect_advanced_fraud_ok_elim r u res h
  subst hres
  rw [fraud_result_of_indicators] at hcount
  show decide (13/20 < min 1 ((ps.countP (fun p => p.1) : ℚ) * (1/4) + u)) = false
  rw [decide_eq_false_iff_not]
  intro hlt
  have h1 : min 1 ((ps.countP (fun p => p.1) : ℚ) * (1/4) + u) ≤
      (ps.countP (fun p => p.1) : ℚ) * (1/4) + u := min_le_right _ _
  have h2 : ((ps.countP (fun p => p.1) : ℚ)) ≤ 1 := by exact_mod_cast hcount
  linarith

set_option maxRecDepth 1000000 in
/-- Witness for C10 at the record with nine recent inquiries. -/
theorem fraud_flag_requires_two_indicators_witness :
    inquiriesFraudResult.is_fraud = false :=
  fraud_flag_requires_two_indicators inquiriesRecord (1/10) inquiriesFraudResult
    (by norm_num) (by norm_num) (by with_unfolding_all decide) (by decide)

/-! The KS statistic. -/

theorem mem_insertByDesc (x a : ℚ × ℚ) (l : List (ℚ × ℚ)) :
    a ∈ insertByDesc x l ↔ a = x ∨ a ∈ l := by
  induction l with
  | nil => simp [insertByDesc]
  | cons y ys ih =>
    unfold insertByDesc
    split_ifs with h
    · simp [List.mem_cons]
    · rw [List.mem_cons, ih, List.mem_cons]
      tauto

theorem mem_sortByDesc (a : ℚ × ℚ) (l : List (ℚ × ℚ)) :
    a ∈ sortByDesc l ↔ a ∈ l := by
  induction l with
  | nil => simp [sortByDesc]
  | cons x xs ih =>
    unfold sortByDesc
    rw [mem_insertByDesc, ih, List.mem_cons]

theorem ks_labels_mem (y_true y_pred : List ℚ) (a : ℚ)
    (ha : a ∈ ks_labels y_true y_pred) : a ∈ y_true := by
  unfold ks_labels at ha
  rw [List.mem_map] at ha
  obtain ⟨p, hp, rfl⟩ := ha
  obtain ⟨pa, pb⟩ := p
  rw [mem_sortByDesc] at hp
  exact (List.of_mem_zip hp).1

theorem dedup_length_lt_two (l : List ℚ) (h : ∀ a ∈ l, ∀ b ∈ l, a = b) :
    l.dedup.length < 2 := by
  rcases hd : l.dedup with _ | ⟨x, _ | ⟨y, t⟩⟩
  · norm_num
  · norm_num
  · exfalso
    have hnd := l.nodup_dedup
    rw [hd] at hnd
    have hxy : x ≠ y := by
      intro he
      subst he
      exact (List.nodup_cons.mp hnd).1 (List.mem_cons_self x t)
    have hx : x ∈ l := List.mem_dedup.mp (by rw [hd]; exact List.mem_cons_self x (y :: t))
    have hy : y ∈ l := List.mem_dedup.mp
      (by rw [hd]; exact List.mem_cons_of_mem x (List.mem_cons_self y t))
    exact hxy (h x hx y hy)

theorem le_foldl_max (l : List ℚ) (a : ℚ) : a ≤ l.foldl max a := by
  induction l generalizing a with
  | nil => exact le_refl a
  | cons x xs ih =>
    rw [List.foldl_cons]
    exact le_trans (le_max_left a x) (ih (max a x))

theorem foldl_max_le (l : List ℚ) (c : ℚ) :
    (∀ x ∈ l, x ≤ c) → ∀ a : ℚ, a ≤ c → l.foldl max a ≤ c := by
  induction l with
  | nil => exact fun _ a ha => ha
  | cons x xs ih =>
    intro h a ha
    rw [List.foldl_cons]
    exact ih (fun y hy => h y (List.mem_cons_of_mem x hy)) (max a x)
      (max_le ha (h x (List.mem_cons_self x xs)))

theorem cumDiff_le_one (ys : List ℚ) (i : ℕ) :
    cumDiff ys (max 1 ((ys.countP (fun y => decide (y = 1)) : ℚ)))
      (max 1 ((ys.countP (fun y => decide (y = 0)) : ℚ))) i ≤ 1 := by
  unfold cumDiff
  have hP0 : (0:ℚ) < max 1 ((ys.countP (fun y => decide (y = 1)) : ℚ)) :=
    lt_of_lt_of_le one_pos (le_max_left _ _)
  have hN0 : (0:ℚ) < max 1 ((ys.countP (fun y => decide (y = 0)) : ℚ)) :=
    lt_of_lt_of_le one_pos (le_max_left _ _)
  have hp1 : (((ys.take (i + 1)).countP (fun y => decide (y = 1)) : ℚ)) ≤
      max 1 ((ys.countP (fun y => decide (y = 1)) : ℚ)) := by
    refine le_trans ?_ (le_max_right _ _)
    exact_mod_cast List.Sublist.countP_le _ (List.take_sublist (i + 1) ys)
  have hn1 : (((ys.take (i + 1)).countP (fun y => decide (y = 0)) : ℚ)) ≤
      max 1 ((ys.countP (fun y => decide (y = 0)) : ℚ)) := by
    refine le_trans ?_ (le_max_right _ _)
    exact_mod_cast List.Sublist.countP_le _ (List.take_sublist (i + 1) ys)
  have ha1 : (((ys.take (i + 1)).countP (fun y => decide (y = 1)) : ℚ)) /
      max 1 ((ys.countP (fun y => decide (y = 1)) : ℚ)) ≤ 1 :=
    (div_le_one hP0).mpr hp1
  have ha0 : (0:ℚ) ≤ (((ys.take (i + 1)).countP (fun y => decide (y = 1)) : ℚ)) /
      max 1 ((ys.countP (fun y => decide (y = 1)) : ℚ)) :=
    div_nonneg (by positivity) (le_of_lt hP0)
  have hb1 : (((ys.take (i + 1)).countP (fun y => decide (y = 0)) : ℚ)) /
      max 1 ((ys.countP (fun y => decide (y = 0)) : ℚ)) ≤ 1 :=
    (div_le_one hN0).mpr hn1
  have hb0 : (0:ℚ) ≤ (((ys.take (i + 1)).countP (fun y => decide (y = 0)) : ℚ)) /
      max 1 ((ys.countP (fun y => decide (y = 0)) : ℚ)) :=
    div_nonneg (by positivity) (le_of_lt hN0)
  rw [abs_sub_le_iff]
  constructor <;> linarith

theorem ks_core_bounds (ys : List ℚ) : 0 ≤ ks_core ys ∧ ks_core ys ≤ 1 := by
  constructor
  · exact le_foldl_max _ 0
  · refine foldl_max_le _ 1 ?_ 0 (by norm_num)
    intro x hx
    rw [List.mem_map] at hx
    obtain ⟨i, hi, rfl⟩ := hx
    exact cumDiff_le_one ys i

/-- C8: `ks_statistic` returns 0 whenever all labels are identical
(fewer than two distinct label classes), and on every pair of inputs
its value lies in [0, 1]. -/
theorem ks_statistic_zero_and_bounds :
    (∀ y_true y_pred : List ℚ, (∀ a ∈ y_true, ∀ b ∈ y_true, a = b) →
      ks_statistic y_true y_pred = 0) ∧
    (∀ y_true y_pred : List ℚ,
      0 ≤ ks_statistic y_true y_pred ∧ ks_statistic y_true y_pred ≤ 1) := by
  constructor
  · intro yt yp h
    unfold ks_statistic
    split_ifs with h1 h2
    · rfl
    · rfl
    · exact absurd
        (dedup_length_lt_two _
          (fun a ha b hb => h a (ks_labels_mem yt yp a ha) b (ks_labels_mem yt yp b hb)))
        h2
  · intro yt yp
    unfold ks_statistic
    split_ifs with h1 h2
    · norm_num
    · norm_num
    · exact ks_core_bounds _

/-- Witness for C8: a single-class input yields 0, and a two-class
input stays within [0, 1]. -/
theorem ks_statistic_zero_and_bounds_witness :
    ks_statistic [1, 1] [2, 3] = 0 ∧
    (0 ≤ ks_statistic [1, 0] [2, 3] ∧ ks_statistic [1, 0] [2, 3] ≤ 1) :=
  ⟨ks_statistic_zero_and_bounds.1 [1, 1] [2, 3] (by with_unfolding_all decide),
   ks_statistic_zero_and_bounds.2 [1, 0] [2, 3]⟩

/-! The population stability index. -/

/-- C9: `psi_from_scores` returns the explicit undefined sentinel, not
a number, whenever either input distribution is empty. -/
theorem psi_empty_undefined :
    ∀ (expected_scores actual_scores : List ℚ) (bins : ℕ),
      expected_scores = [] ∨ actual_scores = [] →
      psi_from_scores expected_scores actual_scores bins = none := by
  intro e a bins h
  unfold psi_from_scores
  rcases h with rfl | rfl
  · rw [if_pos (show ([] : List ℚ).length = 0 ∨ a.length = 0 from Or.inl rfl)]
  · rw [if_pos (show e.length = 0 ∨ ([] : List ℚ).length = 0 from Or.inr rfl)]

/-- Witness for C9 at an empty expected distribution. -/
theorem psi_empty_undefined_witness :
    psi_from_scores [] [5] 10 = none :=
  psi_empty_undefined [] [5] 10 (Or.inl rfl)

end Fintect
